import Mathlib

/-!
Verification of the inbound message-processing pipeline and outbound media
preparation of the Baileys fork, against its specification.

The development shallowly embeds the relevant functions of
`src/Socket/messages-recv.ts` (sendMessageAck, sendRetryRequest,
willSendMessageAgain, sendMessagesAgain, handleReceipt, processNotification,
handleNotification, the CB:message handler) and `prepareMediaMessage` of the
legacy send path.  External collaborators (Signal crypto, JID codec,
protobuf encoding) are taken as parameters, exactly as the source imports
them from outside the verified files.

JavaScript conventions carried over by the embedding:
- stanza attributes are modelled as `Option String`; a `!!attr` truthiness
  test in the source becomes `truthy`, which is false for a missing
  attribute and for the empty string (both are falsy in JS);
- the retry counter store `msgRetryMap` maps ids to `Nat`, with `0` playing
  the role of a missing entry (the source only ever reads it through
  `|| 0` or `|| 1`, which conflate a missing entry with `0`).
-/

namespace Baileys

/-- JS truthiness of an optional string attribute: a missing attribute and
the empty string are both falsy. -/
def truthy : Option String → Bool
  | none => false
  | some s => !(s == "")

/-- JS `a || b` on optional string attributes. -/
def jsOr (a b : Option String) : Option String :=
  if truthy a then a else b

/-- A decoded binary-XML stanza node: tag, attribute list, child nodes and a
byte body (either of the last two may be empty, mirroring `BinaryNode`
whose content is children or a buffer). -/
inductive BNode where
  | node (tag : String) (attrs : List (String × String))
      (children : List BNode) (body : List Nat)

/-- Tag of a node. -/
def BNode.tag : BNode → String
  | .node t _ _ _ => t

/-- Attribute list of a node. -/
def BNode.attrs : BNode → List (String × String)
  | .node _ a _ _ => a

/-- Children of a node. -/
def BNode.children : BNode → List BNode
  | .node _ _ c _ => c

/-- Byte body of a node. -/
def BNode.body : BNode → List Nat
  | .node _ _ _ b => b

/-! ### Retry counter store (`msgRetryMap`) -/

/-- The retry counter store `msgRetryMap`: message id to count, `0` meaning
the id is absent from the map. -/
def RetryMap := String → Nat

/-- The empty counter store. -/
def RetryMap.empty : RetryMap := fun _ => 0

/-- Point update of the counter store; storing `0` models `delete`. -/
def RetryMap.set (m : RetryMap) (id : String) (n : Nat) : RetryMap :=
  fun j => if j = id then n else m j

/-- `willSendMessageAgain` (messages-recv.ts): the counter read through
`|| 0` is below 5. -/
def willSendMessageAgain (m : RetryMap) (id : String) : Bool :=
  decide (m id < 5)

/-! ### sendRetryRequest -/

/-- The inputs `sendRetryRequest` reads off the failed inbound stanza.
`deviceJid` stands for `jidEncode(jidDecode(from).user, 's.whatsapp.net',
jidDecode(from).device, 0)`, the device-specific encoding of the sender
computed by the external JID codec. -/
structure RetryInput where
  id : String
  t : String
  fromJid : String
  recipient : Option String
  participant : Option String
  deviceJid : String

/-- The key material `sendRetryRequest` obtains from the auth state and the
external helpers: `keyBundleTypeByte` is
`generateSignalPubKey(Buffer.from(KEY_BUNDLE_TYPE)).slice(0, 1)`,
`identityPub` is `authState.creds.signedIdentityKey.public`, `preKeyNode`
is `xmppPreKey(key, +keyId)` for the one fresh prekey returned by
`getNextPreKeys(authState, 1)`, `signedPreKeyNode` is
`xmppSignedPreKey(signedPreKey)`, `deviceIdentity` is the protobuf
encoding of `account`, and `registrationIdBE` is
`encodeBigEndian(registrationId)`. -/
structure RetryParams where
  keyBundleTypeByte : List Nat
  identityPub : List Nat
  preKeyNode : BNode
  signedPreKeyNode : BNode
  deviceIdentity : List Nat
  registrationIdBE : List Nat

/-- The `keys` bundle pushed onto the retry receipt when `retryCount > 1`. -/
def retryKeysNode (p : RetryParams) : BNode :=
  .node "keys" []
    [ .node "type" [] [] p.keyBundleTypeByte,
      .node "identity" [] [] p.identityPub,
      p.preKeyNode,
      p.signedPreKeyNode,
      .node "device-identity" [] [] p.deviceIdentity ] []

/-- `sendRetryRequest` (messages-recv.ts lines 91-170): reads
`retryCount = msgRetryMap[id] || 1`; at `retryCount >= 5` deletes the entry
and returns without sending; otherwise stores `retryCount + 1` and sends a
`receipt` stanza of type `retry` whose children are the `retry` element
(count, id, t, v="1"), the big-endian `registration` element, and - only
when `retryCount > 1` - the `keys` bundle.  `recipient` and `participant`
are copied from the input when present.  The returned stanza is the one
passed to `sendNode` (assuming the key-store transaction succeeds; on
transaction failure the counter update persists but nothing is sent). -/
def sendRetryRequest (m : RetryMap) (inp : RetryInput) (p : RetryParams) :
    RetryMap × Option BNode :=
  let retryCount := if m inp.id = 0 then 1 else m inp.id
  if 5 ≤ retryCount then
    (m.set inp.id 0, none)
  else
    let isGroup := truthy inp.participant
    let baseAttrs := [("id", inp.id), ("type", "retry"),
      ("to", if isGroup then inp.fromJid else inp.deviceJid)]
    let attrs := baseAttrs
      ++ (match inp.recipient with
          | some r => if truthy inp.recipient then [("recipient", r)] else []
          | none => [])
      ++ (match inp.participant with
          | some q => if truthy inp.participant then [("participant", q)] else []
          | none => [])
    let content :=
      [ BNode.node "retry"
          [("count", toString retryCount), ("id", inp.id),
           ("t", inp.t), ("v", "1")] [] [],
        BNode.node "registration" [] [] p.registrationIdBE ]
      ++ (if 1 < retryCount then [retryKeysNode p] else [])
    (m.set inp.id (retryCount + 1), some (.node "receipt" attrs content []))

/-- `sendMessagesAgain` counter effect (messages-recv.ts lines 333-343):
for each requested id whose message is available from the external store,
bump `msgRetryMap[id] = (msgRetryMap[id] || 0) + 1` (and relay the
message); ids with no stored message are skipped. -/
def sendMessagesAgainCounter (m : RetryMap) (ids : List String)
    (avail : String → Bool) : RetryMap :=
  ids.foldl (fun m id => if avail id then m.set id (m id + 1) else m) m

/-- Retry path of `handleReceipt` (messages-recv.ts lines 404-421) as it
affects the counter store: on a `retry` receipt, if
`willSendMessageAgain(ids[0])` and the key is ours, run
`sendMessagesAgain`; otherwise the store is untouched. -/
def handleReceiptRetryCounter (m : RetryMap) (id0 : String)
    (rest : List String) (fromMe : Bool) (avail : String → Bool) : RetryMap :=
  if willSendMessageAgain m id0 && fromMe then
    sendMessagesAgainCounter m (id0 :: rest) avail
  else
    m

/-! ### Traces of counter-mutating operations (for the retry invariant) -/

/-- One counter-mutating operation of the socket: a decryption-failure
retry request, or a receipt-triggered resend. -/
inductive RetryOp where
  | retryReq (inp : RetryInput) (p : RetryParams)
  | receiptRetry (id0 : String) (rest : List String) (fromMe : Bool)
      (avail : String → Bool)

/-- Effect of one operation on the counter store. -/
def RetryOp.apply (op : RetryOp) (m : RetryMap) : RetryMap :=
  match op with
  | .retryReq inp p => (sendRetryRequest m inp p).1
  | .receiptRetry id0 rest fromMe avail =>
      handleReceiptRetryCounter m id0 rest fromMe avail

/-- Whether the operation, run on store `m`, emits a retry receipt stanza
for message id `id`. -/
def RetryOp.emitsRetryFor (op : RetryOp) (m : RetryMap) (id : String) : Bool :=
  match op with
  | .retryReq inp p => inp.id == id && (sendRetryRequest m inp p).2.isSome
  | .receiptRetry _ _ _ _ => false

/-- Run a list of operations on a counter store. -/
def runRetryOps (ops : List RetryOp) (m : RetryMap) : RetryMap :=
  ops.foldl (fun m op => op.apply m) m

/-- Counter for `id` after the first `i` operations of `ops`, starting from
the empty store. -/
def counterAfter (ops : List RetryOp) (i : Nat) (id : String) : Nat :=
  runRetryOps (ops.take i) RetryMap.empty id

/-- Claim C1 as stated: along every operation trace, every id's counter is
monotonically non-decreasing, never exceeds 5, and no retry receipt stanza
is emitted for an id once its counter has reached 5. -/
def retryCounterClaim : Prop :=
  ∀ (ops : List RetryOp) (id : String),
    (∀ i j, i ≤ j → counterAfter ops i id ≤ counterAfter ops j id) ∧
    (∀ i, counterAfter ops i id ≤ 5) ∧
    (∀ i j, i ≤ j → 5 ≤ counterAfter ops i id →
      ∀ op, ops.get? j = some op →
        op.emitsRetryFor (runRetryOps (ops.take j) RetryMap.empty) id = false)

/-! ### sendMessageAck -/

/-- The attributes `sendMessageAck` reads off the inbound stanza. -/
structure InAttrs where
  id : Option String
  fromJid : Option String
  participant : Option String
  type : Option String

/-- The extra attributes a caller may pass to `sendMessageAck`, projected
onto the keys the ack stanza can carry (`BinaryNodeAttributes` is an open
string map; only these keys interact with the construction). `some v`
means the key is present with value `v`. -/
structure ExtraAttrs where
  id : Option String := none
  toJid : Option String := none
  ackClass : Option String := none
  participant : Option String := none
  type : Option String := none

/-- The attributes of the emitted ack stanza. -/
structure AckAttrs where
  id : Option String
  toJid : Option String
  ackClass : Option String
  participant : Option String
  type : Option String

/-- JS object-spread override: the extra attribute wins when its key is
present. -/
def spreadOver (extraField baseField : Option String) : Option String :=
  match extraField with
  | some v => some v
  | none => baseField

/-- `sendMessageAck` (messages-recv.ts lines 68-89): builds
`{ id: attrs.id, to: attrs.from, class: tag, ...extraAttrs }`, then
overwrites `participant` with the input's when that is truthy, and sets
`type` from the input when the tag is not `message`, the input has a
truthy `type`, and the extra attributes have no truthy `type`. -/
def sendMessageAck (tag : String) (attrs : InAttrs) (extra : ExtraAttrs) :
    AckAttrs :=
  let base : AckAttrs :=
    { id := spreadOver extra.id attrs.id,
      toJid := spreadOver extra.toJid attrs.fromJid,
      ackClass := spreadOver extra.ackClass (some tag),
      participant := extra.participant,
      type := extra.type }
  let withPart :=
    if truthy attrs.participant then
      { base with participant := attrs.participant }
    else base
  if tag ≠ "message" && truthy attrs.type && !(truthy extra.type) then
    { withPart with type := attrs.type }
  else withPart

/-- Claim C7 as stated: for every stanza and extra attributes, the ack
carries `id = attrs.id`, `to = attrs.from`, `class = tag`; `participant`
is copied iff present on the input; the input's `type` is copied iff the
tag is not `message` and the caller supplied no type override. -/
def sendMessageAckClaim : Prop :=
  ∀ (tag : String) (attrs : InAttrs) (extra : ExtraAttrs),
    let ack := sendMessageAck tag attrs extra
    ack.id = attrs.id ∧
    ack.toJid = attrs.fromJid ∧
    ack.ackClass = some tag ∧
    (truthy attrs.participant → ack.participant = attrs.participant) ∧
    (¬ truthy attrs.participant → ack.participant = extra.participant) ∧
    ((tag ≠ "message" ∧ truthy attrs.type ∧ ¬ truthy extra.type) →
      ack.type = attrs.type)

/-! ### handleReceipt: remoteJid / fromMe derivation -/

/-- The attributes `handleReceipt` reads off the receipt stanza. -/
structure ReceiptAttrs where
  id : String
  fromJid : Option String
  participant : Option String
  recipient : Option String
  type : Option String
  t : Nat

/-- `isNodeFromMe` (messages-recv.ts line 350):
`areJidsSameUser(attrs.participant || attrs.from, me.id)`, with the JID
comparison `sameUserAsMe` abstract (external `WABinary` helper). -/
def receiptIsNodeFromMe (sameUserAsMe : Option String → Bool)
    (a : ReceiptAttrs) : Bool :=
  sameUserAsMe (jsOr a.participant a.fromJid)

/-- `remoteJid` derivation (messages-recv.ts line 351):
`!isNodeFromMe || isJidGroup(attrs.from) ? attrs.from : attrs.recipient`. -/
def receiptRemoteJid (sameUserAsMe : Option String → Bool)
    (isGroupJid : Option String → Bool) (a : ReceiptAttrs) : Option String :=
  if !(receiptIsNodeFromMe sameUserAsMe a) || isGroupJid a.fromJid then
    a.fromJid
  else
    a.recipient

/-- `fromMe` derivation (messages-recv.ts line 352):
`!attrs.recipient || (attrs.type === 'retry' && isNodeFromMe)`. -/
def receiptFromMe (sameUserAsMe : Option String → Bool)
    (a : ReceiptAttrs) : Bool :=
  !(truthy a.recipient) ||
    (a.type == some "retry" && receiptIsNodeFromMe sameUserAsMe a)

/-- The `remoteJid` rule in the words of the spec: `from` when the node is
not from the local user or `from` is a group JID, else `recipient`; "from
the local user" meaning the participant (or `from` when the participant is
absent) names the same user as the local identity. -/
def specReceiptRemoteJid (sameUserAsMe : Option String → Bool)
    (isGroupJid : Option String → Bool) (a : ReceiptAttrs) : Option String :=
  let fromLocalUser := sameUserAsMe (jsOr a.participant a.fromJid)
  if ¬ fromLocalUser ∨ isGroupJid a.fromJid then a.fromJid else a.recipient

/-- The `fromMe` rule in the words of the spec: true iff the recipient is
absent, or the type is `retry` and the node is from the local user. -/
def specReceiptFromMe (sameUserAsMe : Option String → Bool)
    (a : ReceiptAttrs) : Bool :=
  let fromLocalUser := sameUserAsMe (jsOr a.participant a.fromJid)
  decide (¬ truthy a.recipient ∨ (a.type = some "retry" ∧ fromLocalUser))

/-! ### handleReceipt: status updates -/

/-- Message status values, in the order of the spec
(`PENDING → SERVER_ACK → DELIVERY_ACK → READ → PLAYED`); modelled from the
spec, as the protobuf enum is external to the verified files. -/
def statusDELIVERY_ACK : Nat := 3

/-- Status value for a read receipt. -/
def statusREAD : Nat := 4

/-- Status value for a played receipt. -/
def statusPLAYED : Nat := 5

/-- Modelled from the spec: `getStatusFromReceiptType` lives in
`src/Utils`, outside the verified files; the spec maps an absent type to
DELIVERY_ACK, `read`/`read-self` to READ, `played` to PLAYED, and `retry`
or any other type to no status. -/
def getStatusFromReceiptType : Option String → Option Nat
  | none => some statusDELIVERY_ACK
  | some "read" => some statusREAD
  | some "read-self" => some statusREAD
  | some "played" => some statusPLAYED
  | some _ => none

/-- One entry of a `message-receipt.update` event: the receipt of
`userJid` for message `id`, timestamped on the named field. -/
structure GroupReceiptEntry where
  id : String
  userJid : Option String
  usesReceiptTimestamp : Bool
  timestamp : Nat
deriving DecidableEq

/-- One entry of a `messages.update` event: the new status of message
`id`. -/
structure StatusUpdateEntry where
  id : String
  status : Nat
deriving DecidableEq

/-- What the status-update step of `handleReceipt` emits. -/
inductive ReceiptEmission where
  | silent
  | groupReceipts (entries : List GroupReceiptEntry)
  | statusUpdates (entries : List StatusUpdateEntry)
deriving DecidableEq

/-- Status-update step of `handleReceipt` (messages-recv.ts lines
370-402): when the receipt type maps to a status and
`status > DELIVERY_ACK || !isNodeFromMe`, emit - per id - either a
`message-receipt.update` entry (group `remoteJid`; field
`receiptTimestamp` exactly when the status is DELIVERY_ACK) or a
`messages.update` entry `{status}`.  `participantNorm` stands for the
external `jidNormalizedUser(attrs.participant)`. -/
def receiptStatusEmission (typ : Option String) (isNodeFromMe : Bool)
    (remoteJidIsGroup : Bool) (ids : List String)
    (participantNorm : Option String) (t : Nat) : ReceiptEmission :=
  match getStatusFromReceiptType typ with
  | none => .silent
  | some status =>
    if statusDELIVERY_ACK < status || !isNodeFromMe then
      if remoteJidIsGroup then
        .groupReceipts (ids.map fun id =>
          { id := id, userJid := participantNorm,
            usesReceiptTimestamp := status = statusDELIVERY_ACK,
            timestamp := t })
      else
        .statusUpdates (ids.map fun id => { id := id, status := status })
    else
      .silent

/-! ### handleReceipt: ack gating -/

/-- Whether the retry path of `handleReceipt` invokes `sendMessagesAgain`:
the receipt type is `retry`, the first id's counter is below 5
(`willSendMessageAgain`), and the derived key is ours. -/
def receiptResendInvoked (typ : Option String) (counter0 : Nat)
    (fromMe : Bool) : Bool :=
  typ == some "retry" && decide (counter0 < 5) && fromMe

/-- Number of acks `handleReceipt` (messages-recv.ts lines 346-429) sends:
`shouldAck` starts true and is cleared exactly when the `retry` branch
runs `sendMessagesAgain` and that call throws (`resendFails` says whether
`sendMessagesAgain` would throw if invoked); at the end one ack is sent
iff `shouldAck` still holds. -/
def handleReceiptAckCount (typ : Option String) (counter0 : Nat)
    (fromMe : Bool) (resendFails : Bool) : Nat :=
  let shouldAck :=
    if typ == some "retry" then
      if counter0 < 5 then
        if fromMe then !resendFails else true
      else true
    else true
  if shouldAck then 1 else 0

/-! ### Concrete fixtures for counterexamples and witnesses -/

/-- A minimal concrete failed-stanza input for a given message id. -/
def sampleRetryInput (id : String) : RetryInput :=
  { id := id, t := "1000", fromJid := "a@s.whatsapp.net",
    recipient := none, participant := none,
    deviceJid := "a@s.whatsapp.net" }

/-- Minimal concrete key material. -/
def sampleRetryParams : RetryParams :=
  { keyBundleTypeByte := [5], identityPub := [1, 2],
    preKeyNode := .node "key" [] [] [3],
    signedPreKeyNode := .node "skey" [] [] [4],
    deviceIdentity := [6], registrationIdBE := [0, 0, 0, 9] }

/-- Six consecutive decryption-failure retry requests for the same id. -/
def retryTraceA : List RetryOp :=
  List.replicate 6 (RetryOp.retryReq (sampleRetryInput "A") sampleRetryParams)

/-- Six retry receipts listing ids "A" and "B", where only "B"'s message
is still available from the external store: the `willSendMessageAgain`
gate only ever inspects "A", whose counter never moves. -/
def retryTraceB : List RetryOp :=
  List.replicate 6 (RetryOp.receiptRetry "A" ["B"] true (fun s => s == "B"))

/-! ### Theorems -/

/-- C1, counterexample: the claim fails on concrete traces.  After four
retry requests for id "A" the counter is 5; the fifth request deletes the
entry (the counter drops to 0, i.e. absent), and the sixth request reads
`|| 1` and emits a retry stanza again, even though the counter had
reached 5 - refuting monotonicity and the no-stanza-after-cap conjunct.
And on six retry receipts for ids ["A", "B"] gated only by "A" (whose
message is unavailable, so its counter stays 0), "B"'s counter climbs to
6 - refuting the never-exceeds-5 conjunct. -/
theorem retryCounterClaim_false :
    ¬ retryCounterClaim ∧
    counterAfter retryTraceA 4 "A" = 5 ∧
    counterAfter retryTraceA 5 "A" = 0 ∧
    (RetryOp.retryReq (sampleRetryInput "A") sampleRetryParams).emitsRetryFor
      (runRetryOps (List.take 5 retryTraceA) RetryMap.empty) "A" = true ∧
    counterAfter retryTraceB 6 "B" = 6 := by
  refine ⟨?_, by decide, by decide, by decide, by decide⟩
  intro h
  have h1 := (h retryTraceA "A").1 4 5 (by norm_num)
  have e4 : counterAfter retryTraceA 4 "A" = 5 := by decide
  have e5 : counterAfter retryTraceA 5 "A" = 0 := by decide
  rw [e4, e5] at h1
  exact absurd h1 (by norm_num)

/-- C1 (amended): per call, `sendRetryRequest` either finds the stored
count at 5 or above, deletes the entry and emits nothing, or stores the
read count plus one - never exceeding 5 - and emits the retry receipt;
other ids are untouched; and the receipt-triggered resend path runs (and
bumps counters) only when the first id's counter is below 5 and the key is
ours, in which case it applies `sendMessagesAgain`'s per-id increments. -/
theorem retryCounter_amended :
    (∀ (m : RetryMap) (inp : RetryInput) (p : RetryParams) (rc : Nat),
      rc = (if m inp.id = 0 then 1 else m inp.id) →
      (5 ≤ rc → sendRetryRequest m inp p = (m.set inp.id 0, none)) ∧
      (rc < 5 →
        (sendRetryRequest m inp p).1 inp.id = rc + 1 ∧
        rc + 1 ≤ 5 ∧
        ((sendRetryRequest m inp p).2.map BNode.tag = some "receipt")) ∧
      (∀ j, j ≠ inp.id → (sendRetryRequest m inp p).1 j = m j)) ∧
    (∀ (m : RetryMap) (id0 : String) (rest : List String) (fromMe : Bool)
        (avail : String → Bool),
      (¬ (m id0 < 5 ∧ fromMe = true) →
        handleReceiptRetryCounter m id0 rest fromMe avail = m) ∧
      ((m id0 < 5 ∧ fromMe = true) →
        handleReceiptRetryCounter m id0 rest fromMe avail =
          sendMessagesAgainCounter m (id0 :: rest) avail)) := by
  constructor
  · intro m inp p rc hrc
    refine ⟨?_, ?_, ?_⟩
    · intro h5
      simp only [sendRetryRequest, ← hrc]
      rw [if_pos h5]
    · intro hlt
      simp only [sendRetryRequest, ← hrc]
      rw [if_neg (not_le.mpr hlt)]
      refine ⟨?_, by omega, rfl⟩
      simp [RetryMap.set]
    · intro j hj
      simp only [sendRetryRequest, ← hrc]
      by_cases h5 : 5 ≤ rc
      · rw [if_pos h5]
        simp [RetryMap.set, hj]
      · rw [if_neg h5]
        simp [RetryMap.set, hj]
  · intro m id0 rest fromMe avail
    constructor
    · intro h
      rw [handleReceiptRetryCounter, if_neg]
      simp only [willSendMessageAgain, Bool.and_eq_true, decide_eq_true_eq]
      exact fun hc => h ⟨hc.1, hc.2⟩
    · intro h
      rw [handleReceiptRetryCounter, if_pos]
      simp only [willSendMessageAgain, Bool.and_eq_true, decide_eq_true_eq]
      exact ⟨h.1, h.2⟩

/-- C1, witness: the amended theorem applied at concrete stores - a store
holding count 5 for "A" (deletion case), the empty store (increment and
emission case), and the gating of the resend path at count 5. -/
theorem retryCounter_amended_witness :
    sendRetryRequest (RetryMap.empty.set "A" 5) (sampleRetryInput "A")
        sampleRetryParams = ((RetryMap.empty.set "A" 5).set "A" 0, none) ∧
    (sendRetryRequest RetryMap.empty (sampleRetryInput "A")
        sampleRetryParams).1 "A" = 2 ∧
    handleReceiptRetryCounter (RetryMap.empty.set "A" 5) "A" [] true
        (fun _ => true) = RetryMap.empty.set "A" 5 := by
  refine ⟨?_, ?_, ?_⟩
  · exact (retryCounter_amended.1 (RetryMap.empty.set "A" 5)
      (sampleRetryInput "A") sampleRetryParams 5 (by decide)).1 (by norm_num)
  · exact ((retryCounter_amended.1 RetryMap.empty (sampleRetryInput "A")
      sampleRetryParams 1 (by decide)).2.1 (by norm_num)).1
  · exact (retryCounter_amended.2 (RetryMap.empty.set "A" 5) "A" [] true
      (fun _ => true)).1 (by decide)

/-- C7, counterexample: the claim fails when the caller's extra attributes
override the `class` key - on a `receipt` stanza with extra attributes
`{ class: "oops" }`, the emitted ack carries `class = "oops"`, not the
stanza tag, because the JS object spread `{ id, to, class, ...extraAttrs }`
lets extra attributes win. -/
theorem sendMessageAckClaim_false : ¬ sendMessageAckClaim := by
  intro h
  have hc := (h "receipt"
    { id := some "1", fromJid := some "a@s.whatsapp.net",
      participant := none, type := none }
    { ackClass := some "oops" }).2.2.1
  exact absurd hc (by decide)

/-- C7 (amended): the ack carries `id = attrs.id`, `to = attrs.from` and
`class = tag` whenever the extra attributes do not override the
corresponding key (an extra attribute takes precedence via the object
spread); `participant` is copied from the input iff present there,
otherwise the extra attributes' participant (if any) stands; the input's
`type` is copied iff the tag is not `message`, the input's type is
present, and the extra attributes carry no type override - otherwise the
ack's type is the extra attributes' type. -/
theorem sendMessageAck_amended :
    ∀ (tag : String) (attrs : InAttrs) (extra : ExtraAttrs),
      (extra.id = none → (sendMessageAck tag attrs extra).id = attrs.id) ∧
      (extra.toJid = none →
        (sendMessageAck tag attrs extra).toJid = attrs.fromJid) ∧
      (extra.ackClass = none →
        (sendMessageAck tag attrs extra).ackClass = some tag) ∧
      (truthy attrs.participant = true →
        (sendMessageAck tag attrs extra).participant = attrs.participant) ∧
      (truthy attrs.participant = false →
        (sendMessageAck tag attrs extra).participant = extra.participant) ∧
      ((tag ≠ "message" && truthy attrs.type && !(truthy extra.type)) = true →
        (sendMessageAck tag attrs extra).type = attrs.type) ∧
      ((tag ≠ "message" && truthy attrs.type && !(truthy extra.type)) = false →
        (sendMessageAck tag attrs extra).type = extra.type) := by
  intro tag attrs extra
  have hspec : sendMessageAck tag attrs extra =
      { id := spreadOver extra.id attrs.id,
        toJid := spreadOver extra.toJid attrs.fromJid,
        ackClass := spreadOver extra.ackClass (some tag),
        participant := if truthy attrs.participant then attrs.participant
          else extra.participant,
        type := if tag ≠ "message" && truthy attrs.type && !(truthy extra.type)
          then attrs.type else extra.type } := by
    by_cases hp : truthy attrs.participant = true <;>
      by_cases hc : (tag ≠ "message" && truthy attrs.type
        && !(truthy extra.type)) = true <;>
      simp [sendMessageAck, hp, hc] <;>
      (try (split <;> rfl))
  rw [hspec]
  refine ⟨fun h => ?_, fun h => ?_, fun h => ?_, fun h => ?_, fun h => ?_,
    fun h => ?_, fun h => ?_⟩ <;> dsimp only
  · simp [spreadOver, h]
  · simp [spreadOver, h]
  · simp [spreadOver, h]
  · exact if_pos h
  · exact if_neg (by rw [h]; exact Bool.false_ne_true)
  · exact if_pos h
  · exact if_neg (by rw [h]; exact Bool.false_ne_true)

/-- C7, witness: the amended theorem applied to a concrete `receipt` stanza
with empty extra attributes. -/
theorem sendMessageAck_amended_witness :
    (sendMessageAck "receipt"
      { id := some "A1", fromJid := some "a@s.whatsapp.net",
        participant := some "b@s.whatsapp.net", type := some "read" }
      { }).id = some "A1" ∧
    (sendMessageAck "receipt"
      { id := some "A1", fromJid := some "a@s.whatsapp.net",
        participant := some "b@s.whatsapp.net", type := some "read" }
      { }).participant = some "b@s.whatsapp.net" ∧
    (sendMessageAck "receipt"
      { id := some "A1", fromJid := some "a@s.whatsapp.net",
        participant := some "b@s.whatsapp.net", type := some "read" }
      { }).type = some "read" := by
  refine ⟨?_, ?_, ?_⟩
  · exact (sendMessageAck_amended "receipt"
      { id := some "A1", fromJid := some "a@s.whatsapp.net",
        participant := some "b@s.whatsapp.net", type := some "read" }
      { }).1 rfl
  · exact (sendMessageAck_amended "receipt"
      { id := some "A1", fromJid := some "a@s.whatsapp.net",
        participant := some "b@s.whatsapp.net", type := some "read" }
      { }).2.2.2.1 (by decide)
  · exact (sendMessageAck_amended "receipt"
      { id := some "A1", fromJid := some "a@s.whatsapp.net",
        participant := some "b@s.whatsapp.net", type := some "read" }
      { }).2.2.2.2.2.1 (by decide)

/-- C4: the `remoteJid` and `fromMe` derivations of `handleReceipt`
coincide with the spec's formulas - `remoteJid = from` when the node is
not from the local user or `from` is a group JID and `recipient`
otherwise, and `fromMe` iff the recipient is absent or the type is `retry`
and the node is from the local user, where "from the local user" compares
the participant (falling back to `from`) with the local identity. -/
theorem handleReceipt_key_derivation :
    ∀ (sameUserAsMe : Option String → Bool)
      (isGroupJid : Option String → Bool) (a : ReceiptAttrs),
      receiptRemoteJid sameUserAsMe isGroupJid a =
        specReceiptRemoteJid sameUserAsMe isGroupJid a ∧
      receiptFromMe sameUserAsMe a = specReceiptFromMe sameUserAsMe a := by
  intro su gj a
  constructor
  · unfold receiptRemoteJid specReceiptRemoteJid receiptIsNodeFromMe
    by_cases h1 : su (jsOr a.participant a.fromJid) = true <;>
      by_cases h2 : gj a.fromJid = true <;>
      simp [h1, h2]
  · unfold receiptFromMe specReceiptFromMe receiptIsNodeFromMe
    by_cases h1 : su (jsOr a.participant a.fromJid) = true <;>
      by_cases h2 : truthy a.recipient = true <;>
      by_cases h3 : a.type = some "retry" <;>
      simp [h1, h2, h3]

/-- C5: when the receipt type maps to a status, the status-update step
emits exactly when the status exceeds DELIVERY_ACK or the node is not from
the local user; a group `remoteJid` yields one `message-receipt.update`
entry per id whose timestamp field is `receiptTimestamp` iff the status is
DELIVERY_ACK (`readTimestamp` otherwise), and a non-group `remoteJid`
yields one `messages.update` entry `{status}` per id. -/
theorem handleReceipt_status_updates :
    ∀ (typ : Option String) (isNodeFromMe grp : Bool) (ids : List String)
      (pn : Option String) (t s : Nat),
      getStatusFromReceiptType typ = some s →
      ((receiptStatusEmission typ isNodeFromMe grp ids pn t ≠ .silent) ↔
        (statusDELIVERY_ACK < s ∨ isNodeFromMe = false)) ∧
      ((statusDELIVERY_ACK < s ∨ isNodeFromMe = false) →
        (grp = true →
          receiptStatusEmission typ isNodeFromMe grp ids pn t =
            .groupReceipts (ids.map fun id =>
              { id := id, userJid := pn,
                usesReceiptTimestamp := s = statusDELIVERY_ACK,
                timestamp := t })) ∧
        (grp = false →
          receiptStatusEmission typ isNodeFromMe grp ids pn t =
            .statusUpdates (ids.map fun id => { id := id, status := s }))) := by
  intro typ fm grp ids pn t s hs
  have hcond : (decide (statusDELIVERY_ACK < s) || !fm) = true ↔
      (statusDELIVERY_ACK < s ∨ fm = false) := by
    cases fm <;> simp
  unfold receiptStatusEmission
  rw [hs]
  dsimp only
  by_cases hc : (decide (statusDELIVERY_ACK < s) || !fm) = true
  · rw [if_pos hc]
    refine ⟨?_, fun _ => ⟨fun hg => ?_, fun hg => ?_⟩⟩
    · cases grp <;> simp [hcond.mp hc]
    · rw [hg]; rw [if_pos rfl]
    · rw [hg]; rw [if_neg Bool.false_ne_true]
  · rw [if_neg hc]
    refine ⟨?_, fun h => ?_⟩
    · simp only [ne_self_iff_false, false_iff]
      intro hor
      exact hc (hcond.mpr hor)
    · exact absurd (hcond.mpr h) hc

/-- C5, witness: a `read` receipt from the local user for two ids in a
group chat produces per-id `message-receipt.update` entries carrying
`readTimestamp`. -/
theorem handleReceipt_status_updates_witness :
    receiptStatusEmission (some "read") true true ["m1", "m2"]
        (some "u@s.whatsapp.net") 99 =
      .groupReceipts
        [ { id := "m1", userJid := some "u@s.whatsapp.net",
            usesReceiptTimestamp := false, timestamp := 99 },
          { id := "m2", userJid := some "u@s.whatsapp.net",
            usesReceiptTimestamp := false, timestamp := 99 } ] := by
  have h := ((handleReceipt_status_updates (some "read") true true
    ["m1", "m2"] (some "u@s.whatsapp.net") 99 statusREAD rfl).2
    (Or.inl (by norm_num [statusDELIVERY_ACK, statusREAD]))).1 rfl
  rw [h]
  decide

/-- C6: `handleReceipt` sends exactly one ack, except that the ack is
suppressed exactly when the receipt type is `retry`, the derived key is
ours, and the invoked resend (`sendMessagesAgain`) throws - invocation
itself requiring the `willSendMessageAgain` gate on the first id. -/
theorem handleReceipt_single_ack :
    ∀ (typ : Option String) (counter0 : Nat) (fromMe resendFails : Bool),
      handleReceiptAckCount typ counter0 fromMe resendFails =
        if typ = some "retry" ∧ fromMe = true ∧
            (receiptResendInvoked typ counter0 fromMe = true ∧
              resendFails = true) then 0 else 1 := by
  intro typ c0 fm rf
  unfold handleReceiptAckCount receiptResendInvoked
  by_cases ht : typ = some "retry" <;>
    by_cases hc : c0 < 5 <;>
    cases fm <;> cases rf <;>
    simp [ht, hc]

/-! ### processNotification: group participant changes -/

/-- The values of the `WAMessageStubType` protobuf enum relevant to group
participant notifications (the full enum is external to the verified
files). -/
inductive WAMessageStubType where
  | GROUP_PARTICIPANT_PROMOTE
  | GROUP_PARTICIPANT_DEMOTE
  | GROUP_PARTICIPANT_REMOVE
  | GROUP_PARTICIPANT_ADD
  | GROUP_PARTICIPANT_LEAVE
deriving DecidableEq

/-- The five child tags handled by the participant-change arm of
`processNotification`'s `w:gp2` switch. -/
inductive GpTag where
  | promote
  | demote
  | remove
  | add
  | leave
deriving DecidableEq

/-- The child tag as the string it is on the wire. -/
def GpTag.str : GpTag → String
  | .promote => "promote"
  | .demote => "demote"
  | .remove => "remove"
  | .add => "add"
  | .leave => "leave"

/-- The enum lookup
`WAMessageStubType[\x7bGROUP_PARTICIPANT_ + tag.toUpperCase()\x7d]`. -/
def gpStubOfTag : GpTag → WAMessageStubType
  | .promote => .GROUP_PARTICIPANT_PROMOTE
  | .demote => .GROUP_PARTICIPANT_DEMOTE
  | .remove => .GROUP_PARTICIPANT_REMOVE
  | .add => .GROUP_PARTICIPANT_ADD
  | .leave => .GROUP_PARTICIPANT_LEAVE

/-- Participant-change arm of `processNotification` (messages-recv.ts
lines 256-276): start from `GROUP_PARTICIPANT_<TAG uppercased>`;
when there is exactly one participant jid, it names the same user as the
notification's `participant` attribute (external `areJidsSameUser`,
abstracted as `sameUser`), and the tag is `remove`, reclassify as
`GROUP_PARTICIPANT_LEAVE`; the stub parameters are the participant
jids. -/
def processGroupParticipantNotification (tag : GpTag)
    (participants : List String) (notifParticipant : Option String)
    (sameUser : String → Option String → Bool) :
    WAMessageStubType × List String :=
  let stubType := gpStubOfTag tag
  let stubType :=
    match participants with
    | [p] =>
      if sameUser p notifParticipant && tag.str == "remove" then
        WAMessageStubType.GROUP_PARTICIPANT_LEAVE
      else stubType
    | _ => stubType
  (stubType, participants)

/-- The participant-change rule in the words of the spec: stub
`GROUP_PARTICIPANT_<TAG>` with the participant jids as parameters, except
that exactly one participant naming the notification's own participant
under tag `remove` is reclassified as a leave. -/
def specGroupParticipantStub (tag : GpTag) (participants : List String)
    (notifParticipant : Option String)
    (sameUser : String → Option String → Bool) : WAMessageStubType :=
  if participants.length = 1 ∧
      sameUser (participants.headD "") notifParticipant = true ∧
      tag = .remove then
    WAMessageStubType.GROUP_PARTICIPANT_LEAVE
  else
    gpStubOfTag tag

/-- C8: the participant-change arm of `processNotification` computes
exactly the spec's stub type, with the child participant jids as the stub
parameters. -/
theorem processNotification_participant_stub :
    ∀ (tag : GpTag) (participants : List String)
      (notifParticipant : Option String)
      (sameUser : String → Option String → Bool),
      processGroupParticipantNotification tag participants notifParticipant
          sameUser =
        (specGroupParticipantStub tag participants notifParticipant sameUser,
          participants) := by
  intro tag parts np su
  unfold processGroupParticipantNotification specGroupParticipantStub
  match parts with
  | [] => simp
  | [p] =>
    by_cases hs : su p np = true <;> cases tag <;>
      simp [hs, GpTag.str]
  | p :: q :: rest => simp

/-! ### The `keys` bundle of the retry receipt -/

/-- The `keys` children of a stanza. -/
def BNode.keysChildren (n : BNode) : List BNode :=
  n.children.filter (fun c => c.tag == "keys")

/-- C3: a retry receipt built at pre-increment count 1 carries no `keys`
bundle; at count 2 to 4 it carries exactly one `keys` bundle holding the
key-bundle-type prefix byte, the local identity public key, the fresh
one-time prekey, the current signed prekey, and the encoded device
identity; at count 5 or above no stanza is emitted. -/
theorem sendRetryRequest_keys_bundle :
    ∀ (m : RetryMap) (inp : RetryInput) (p : RetryParams) (rc : Nat),
      rc = (if m inp.id = 0 then 1 else m inp.id) →
      (rc = 1 → ∃ st, (sendRetryRequest m inp p).2 = some st ∧
        st.keysChildren = []) ∧
      (2 ≤ rc → rc ≤ 4 → ∃ st, (sendRetryRequest m inp p).2 = some st ∧
        st.keysChildren =
          [BNode.node "keys" []
            [ .node "type" [] [] p.keyBundleTypeByte,
              .node "identity" [] [] p.identityPub,
              p.preKeyNode,
              p.signedPreKeyNode,
              .node "device-identity" [] [] p.deviceIdentity ] []]) ∧
      (5 ≤ rc → (sendRetryRequest m inp p).2 = none) := by
  intro m inp p rc hrc
  have hread : (if m inp.id = 0 then 1 else m inp.id) = rc := hrc.symm
  refine ⟨?_, ?_, ?_⟩
  · intro h1
    simp only [sendRetryRequest, hread, h1]
    rw [if_neg (show ¬ (5 ≤ 1) by norm_num)]
    refine ⟨_, rfl, ?_⟩
    rw [if_neg (show ¬ (1 < 1) by norm_num)]
    simp [BNode.keysChildren, BNode.children, BNode.tag]
  · intro h2 h4
    simp only [sendRetryRequest, hread]
    rw [if_neg (show ¬ (5 ≤ rc) by omega)]
    refine ⟨_, rfl, ?_⟩
    rw [if_pos (show 1 < rc by omega)]
    simp [BNode.keysChildren, BNode.children, BNode.tag, retryKeysNode]
  · intro h5
    simp only [sendRetryRequest, hread]
    rw [if_pos h5]

/-- C3, witness: at stored count 2 the emitted receipt carries the full
`keys` bundle; from the empty store (count read as 1) it carries none; at
stored count 5 nothing is emitted. -/
theorem sendRetryRequest_keys_bundle_witness :
    (∃ st, (sendRetryRequest (RetryMap.empty.set "A" 2)
        (sampleRetryInput "A") sampleRetryParams).2 = some st ∧
      st.keysChildren =
        [BNode.node "keys" []
          [ .node "type" [] [] [5],
            .node "identity" [] [] [1, 2],
            .node "key" [] [] [3],
            .node "skey" [] [] [4],
            .node "device-identity" [] [] [6] ] []]) ∧
    (∃ st, (sendRetryRequest RetryMap.empty
        (sampleRetryInput "A") sampleRetryParams).2 = some st ∧
      st.keysChildren = []) ∧
    (sendRetryRequest (RetryMap.empty.set "A" 5)
        (sampleRetryInput "A") sampleRetryParams).2 = none := by
  refine ⟨?_, ?_, ?_⟩
  · exact ((sendRetryRequest_keys_bundle (RetryMap.empty.set "A" 2)
      (sampleRetryInput "A") sampleRetryParams 2 (by decide)).2.1
      (by norm_num) (by norm_num))
  · exact ((sendRetryRequest_keys_bundle RetryMap.empty
      (sampleRetryInput "A") sampleRetryParams 1 (by decide)).1 rfl)
  · exact ((sendRetryRequest_keys_bundle (RetryMap.empty.set "A" 5)
      (sampleRetryInput "A") sampleRetryParams 5 (by decide)).2.2
      (by norm_num))

/-! ### The CB:message handler -/

/-- Observable actions of the `CB:message` handler body, in emission
order. -/
inductive MsgAction where
  | ack
  | retryRequest (id : String)
  | receipt (jid : String) (participant : Option String) (ids : List String)
      (rtype : Option String)
  | upsert (utype : String)
deriving DecidableEq

/-- The data the `CB:message` handler works with: the decoded message key,
the stanza's `offline` attribute, the transport state, and the receipt
inputs. -/
structure MsgCtx where
  remoteJid : String
  msgId : String
  offline : Bool
  wsOpen : Bool
  category : Option String
  fromMe : Bool
  remoteJidIsUser : Bool
  keyParticipant : Option String
  author : Option String
  sendActiveReceipts : Bool

/-- Receipt type and participant computed on successful decryption
(messages-recv.ts lines 510-525): `peer` category gives `peer_msg`; our
own message gives `sender` and - for a 1:1 chat - the author device as
participant; otherwise `inactive` when active receipts are off, else no
type (delivered). -/
def messageReceiptInfo (c : MsgCtx) : Option String × Option String :=
  if c.category = some "peer" then
    (some "peer_msg", c.keyParticipant)
  else if c.fromMe then
    (some "sender",
      if c.remoteJidIsUser then c.author else c.keyParticipant)
  else if !c.sendActiveReceipts then
    (some "inactive", c.keyParticipant)
  else
    (none, c.keyParticipant)

/-- Upsert type of an inbound `message` stanza (messages-recv.ts line
529): `append` iff the stanza carried an `offline` attribute. -/
def messageUpsertType (offline : Bool) : String :=
  if offline then "append" else "notify"

/-- Action trace of the `CB:message` handler body (messages-recv.ts lines
484-535): ack first, then - once decryption has resolved - either the
retry request (ciphertext stub, transport still open) or the delivery
receipt, and finally the `messages.upsert` emission. -/
def messageHandlerTrace (c : MsgCtx) (decryptFailed : Bool) :
    List MsgAction :=
  [MsgAction.ack]
  ++ (if decryptFailed then
        (if c.wsOpen then [MsgAction.retryRequest c.msgId] else [])
      else
        [MsgAction.receipt c.remoteJid (messageReceiptInfo c).2 [c.msgId]
          (messageReceiptInfo c).1])
  ++ [MsgAction.upsert (messageUpsertType c.offline)]

/-- C9: the ack is the first observable action of the `CB:message`
handler, and the part of the trace up to and including the ack does not
depend on the decryption outcome - so the outcome is never observable
before the ack is sent. -/
theorem message_ack_before_decryption :
    ∀ (c : MsgCtx) (o o' : Bool),
      (messageHandlerTrace c o).head? = some MsgAction.ack ∧
      (messageHandlerTrace c o).take 1 = (messageHandlerTrace c o').take 1 := by
  intro c o o'
  exact ⟨rfl, rfl⟩

/-! ### handleNotification: upsert type -/

/-- Upsert emission of `handleNotification` (messages-recv.ts lines
431-450): when `processNotification` synthesizes a message, it is emitted
on `messages.upsert` with type `append`; the node's `offline` attribute is
never consulted. -/
def handleNotificationUpsert {α : Type} (offline : Bool)
    (procResult : Option α) : Option (α × String) :=
  procResult.map (fun m => (m, "append"))

/-- C10: every message synthesized from a notification is upserted with
type `append`, independently of the stanza's `offline` attribute, whereas
the upsert type of an inbound `message` stanza is `append` exactly when
its `offline` attribute is set (`notify` otherwise, as the last action of
the handler trace shows). -/
theorem notification_upsert_append :
    ∀ (α : Type) (offline offline' : Bool) (r : Option α) (c : MsgCtx)
      (o : Bool),
      (handleNotificationUpsert offline r).map Prod.snd =
        r.map (fun _ => "append") ∧
      handleNotificationUpsert offline r =
        handleNotificationUpsert offline' r ∧
      (messageHandlerTrace c o).getLast? =
        some (.upsert (if c.offline then "append" else "notify")) := by
  intro α offline offline' r c o
  refine ⟨?_, rfl, ?_⟩
  · cases r <;> rfl
  · cases o <;> cases hw : c.wsOpen <;>
      simp [messageHandlerTrace, messageUpsertType, hw]

/-! ### Base64 and its URL-safe variant (outbound media preparation) -/

/-- The standard base64 alphabet, as used by Node's
`Buffer.toString(base64)`. -/
def base64Alphabet : List Char :=
  "ABCDEFGHIJKLMNOPQRSTUVWXYZabcdefghijklmnopqrstuvwxyz0123456789+/".toList

/-- Character of the base64 alphabet at a given index. -/
def b64Char (n : Nat) : Char :=
  base64Alphabet.getD n 'A'

/-- RFC 4648 base64 of a byte list, with padding - the semantics of
`Buffer.toString(base64)`: each group of three bytes becomes four
alphabet characters; a two-byte tail gets one `=`, a one-byte tail two. -/
def base64Encode : List Nat → List Char
  | [] => []
  | [b1] => [b64Char (b1 / 4), b64Char (b1 % 4 * 16), '=', '=']
  | [b1, b2] =>
    [b64Char (b1 / 4), b64Char (b1 % 4 * 16 + b2 / 16),
      b64Char (b2 % 16 * 4), '=']
  | b1 :: b2 :: b3 :: rest =>
    b64Char (b1 / 4) :: b64Char (b1 % 4 * 16 + b2 / 16) ::
      b64Char (b2 % 16 * 4 + b3 / 64) :: b64Char (b3 % 64) ::
      base64Encode rest

/-- One step of the JS `.replace` chain: `+` to `-` and `/` to `_`. -/
def urlMapChar (c : Char) : Char :=
  if c == '+' then '-' else if c == '/' then '_' else c

/-- The `.replace(+ to -).replace(/ to _)` chain of `prepareMediaMessage`. -/
def toUrlSafe (cs : List Char) : List Char :=
  cs.map urlMapChar

/-- The `.replace(trailing = runs, empty)` step of `prepareMediaMessage`
(the regex anchors at the end, so only the trailing `=` run is removed). -/
def stripTrailingEq (cs : List Char) : List Char :=
  (cs.reverse.dropWhile (fun c => c == '=')).reverse

/-- URL-safe base64 without padding, in the words of the spec: encode,
map `+` to `-` and `/` to `_`, and strip the trailing `=` padding. -/
def base64urlNoPad (bs : List Nat) : List Char :=
  stripTrailingEq (toUrlSafe (base64Encode bs))

/-- A character is URL-safe for the wire constants of the spec if it is
none of `+`, `/`, `=`. -/
def isB64UrlSafe (c : Char) : Bool :=
  !(c == '+' || c == '/' || c == '=')

/-! ### prepareMediaMessage -/

/-- The HKDF-derived key material for one media message, as returned by
the external `getMediaKeys(mediaKey, mediaType)`. -/
structure MediaKeys where
  iv : List Nat
  cipherKey : List Nat
  macKey : List Nat

/-- The external crypto helpers `prepareMediaMessage` imports from
`../WAConnection/Utils` (outside the verified files), with the argument
order of the source: `hmacSign(data, key)` is HMAC-SHA256,
`aesEncrypWithIV(buffer, key, iv)` is AES-256-CBC. -/
structure MediaCryptoPrims where
  sha256 : List Nat → List Nat
  hmacSign : List Nat → List Nat → List Nat
  aesEncrypWithIV : List Nat → List Nat → List Nat → List Nat
  getMediaKeys : List Nat → String → MediaKeys

/-- The ciphertext pieces computed by `prepareMediaMessage`. -/
structure MediaEnc where
  enc : List Nat
  mac : List Nat
  body : List Nat

/-- The fields of the returned media content object that the encryption
step determines (`url` comes from the upload server and `mimetype` from
the options; both are independent of the encryption and not modelled). -/
structure MediaContent where
  mediaKey : List Char
  fileEncSha256 : List Char
  fileSha256 : List Char
  fileLength : Nat

/-- Encryption core and content assembly of `prepareMediaMessage`
(part_001 lines 89-101 and 121-131): derive the media keys, encrypt with
AES-CBC, take the first ten bytes of the HMAC over `iv || enc`, append
them to form the body, hash buffer and body, URL-safe-base64 the body
hash (`.toString(base64)` followed by the two character replacements and
the trailing `=` strip), and emit `fileSha256` through a plain
`.toString(base64)`.  The validation, thumbnailing and HTTP upload of
lines 75-88 and 103-120 do not touch these fields. -/
def prepareMediaMessage (prims : MediaCryptoPrims) (mediaKey : List Nat)
    (mediaType : String) (buffer : List Nat) : MediaEnc × MediaContent :=
  let mediaKeys := prims.getMediaKeys mediaKey mediaType
  let enc := prims.aesEncrypWithIV buffer mediaKeys.cipherKey mediaKeys.iv
  let mac := (prims.hmacSign (mediaKeys.iv ++ enc) mediaKeys.macKey).take 10
  let body := enc ++ mac
  let fileSha256 := prims.sha256 buffer
  let fileEncSha256B64 := stripTrailingEq (toUrlSafe (base64Encode (prims.sha256 body)))
  ({ enc := enc, mac := mac, body := body },
   { mediaKey := base64Encode mediaKey,
     fileEncSha256 := fileEncSha256B64,
     fileSha256 := base64Encode fileSha256,
     fileLength := buffer.length })

/-- Claim C2 as stated: the encryption equations hold and both hashes are
emitted in URL-safe base64 without padding. -/
def prepareMediaClaim : Prop :=
  ∀ (prims : MediaCryptoPrims) (mediaKey : List Nat) (mediaType : String)
    (buffer : List Nat),
    (prepareMediaMessage prims mediaKey mediaType buffer).1.enc =
      prims.aesEncrypWithIV buffer
        (prims.getMediaKeys mediaKey mediaType).cipherKey
        (prims.getMediaKeys mediaKey mediaType).iv ∧
    (prepareMediaMessage prims mediaKey mediaType buffer).1.mac =
      (prims.hmacSign
        ((prims.getMediaKeys mediaKey mediaType).iv ++
          (prepareMediaMessage prims mediaKey mediaType buffer).1.enc)
        (prims.getMediaKeys mediaKey mediaType).macKey).take 10 ∧
    (prepareMediaMessage prims mediaKey mediaType buffer).1.body =
      (prepareMediaMessage prims mediaKey mediaType buffer).1.enc ++
        (prepareMediaMessage prims mediaKey mediaType buffer).1.mac ∧
    (prepareMediaMessage prims mediaKey mediaType buffer).2.fileSha256 =
      base64urlNoPad (prims.sha256 buffer) ∧
    (prepareMediaMessage prims mediaKey mediaType buffer).2.fileEncSha256 =
      base64urlNoPad (prims.sha256
        (prepareMediaMessage prims mediaKey mediaType buffer).1.body)

/-- Concrete primitives for the counterexample: a 32-byte digest whose
base64 form begins with `+` and ends with `=` makes the difference between
the two encodings visible. -/
def sampleMediaPrims : MediaCryptoPrims :=
  { sha256 := fun _ => 251 :: List.replicate 31 0,
    hmacSign := fun data _ => data,
    aesEncrypWithIV := fun buffer _ _ => buffer,
    getMediaKeys := fun _ _ => { iv := [0], cipherKey := [1], macKey := [2] } }

/-- C2, counterexample: `fileSha256` is emitted through a plain
`.toString(base64)` - padded, with `+` and `/` intact - not in URL-safe
unpadded form; with a digest of first byte 251 the emitted string begins
with `+` and ends with `=`, while its URL-safe unpadded form begins with
`-` and is one character shorter. -/
theorem prepareMediaClaim_false : ¬ prepareMediaClaim := by
  intro h
  have hc := (h sampleMediaPrims [7] "image" [0]).2.2.2.1
  exact absurd hc (by decide)

/-- Every character produced by the alphabet lookup lies in the alphabet
(out-of-range indices fall back to the default, itself a member). -/
theorem b64Char_mem (n : Nat) : b64Char n ∈ base64Alphabet := by
  unfold b64Char List.getD
  cases hg : base64Alphabet.get? n with
  | none => decide
  | some c => exact List.get?_mem hg

/-- The replacement chain renders every alphabet character URL-safe. -/
theorem urlMapChar_safe : ∀ c ∈ base64Alphabet, isB64UrlSafe (urlMapChar c) = true := by
  decide

/-- Shape of a base64 encoding: alphabet characters followed by at most
two `=` padding characters. -/
theorem base64Encode_shape : ∀ bs : List Nat, ∃ main pad,
    base64Encode bs = main ++ pad ∧
    (∀ c ∈ main, c ∈ base64Alphabet) ∧
    (∀ c ∈ pad, c = '=')
  | [] => ⟨[], [], rfl, by simp, by simp⟩
  | [b1] => by
    refine ⟨[b64Char (b1 / 4), b64Char (b1 % 4 * 16)], ['=', '='], rfl,
      ?_, ?_⟩
    · intro c hc
      simp only [List.mem_cons, List.not_mem_nil, or_false] at hc
      rcases hc with rfl | rfl <;> exact b64Char_mem _
    · intro c hc
      simp only [List.mem_cons, List.not_mem_nil, or_false] at hc
      rcases hc with h | h <;> exact h
  | [b1, b2] => by
    refine ⟨[b64Char (b1 / 4), b64Char (b1 % 4 * 16 + b2 / 16),
      b64Char (b2 % 16 * 4)], ['='], rfl, ?_, ?_⟩
    · intro c hc
      simp only [List.mem_cons, List.not_mem_nil, or_false] at hc
      rcases hc with rfl | rfl | rfl <;> exact b64Char_mem _
    · intro c hc
      simp only [List.mem_cons, List.not_mem_nil, or_false] at hc
      exact hc
  | b1 :: b2 :: b3 :: rest => by
    obtain ⟨main, pad, heq, hmain, hpad⟩ := base64Encode_shape rest
    refine ⟨b64Char (b1 / 4) :: b64Char (b1 % 4 * 16 + b2 / 16) ::
      b64Char (b2 % 16 * 4 + b3 / 64) :: b64Char (b3 % 64) :: main, pad,
      ?_, ?_, hpad⟩
    · show base64Encode (b1 :: b2 :: b3 :: rest) = _
      rw [base64Encode, heq]
      simp
    · intro c hc
      simp only [List.mem_cons] at hc
      rcases hc with rfl | rfl | rfl | rfl | h
      · exact b64Char_mem _
      · exact b64Char_mem _
      · exact b64Char_mem _
      · exact b64Char_mem _
      · exact hmain c h

/-- Dropping from an append whose first part fully satisfies the
predicate drops into the second part. -/
theorem dropWhile_append_all {α : Type} (p : α → Bool) :
    ∀ (l₁ l₂ : List α), (∀ a ∈ l₁, p a = true) →
      List.dropWhile p (l₁ ++ l₂) = List.dropWhile p l₂
  | [], l₂, _ => rfl
  | a :: l₁, l₂, h => by
    rw [List.cons_append, List.dropWhile_cons]
    rw [h a (by simp)]
    simp only [if_true]
    exact dropWhile_append_all p l₁ l₂ (fun b hb => h b (by simp [hb]))

/-- The URL-safe unpadded encoding chain never emits `+`, `/` or `=`. -/
theorem b64urlNoPad_all_safe (bs : List Nat) :
    (stripTrailingEq (toUrlSafe (base64Encode bs))).all isB64UrlSafe = true := by
  obtain ⟨main, pad, heq, hmain, hpad⟩ := base64Encode_shape bs
  rw [heq]
  unfold toUrlSafe stripTrailingEq
  rw [List.map_append, List.reverse_append]
  rw [dropWhile_append_all]
  · rw [List.all_eq_true]
    intro c hc
    have h1 : c ∈ (main.map urlMapChar).reverse.dropWhile (fun c => c == '=') :=
      List.mem_reverse.mp hc
    have h2 : c ∈ (main.map urlMapChar).reverse :=
      (List.dropWhile_sublist _).subset h1
    have h3 : c ∈ main.map urlMapChar := List.mem_reverse.mp h2
    obtain ⟨c₀, hc₀, rfl⟩ := List.mem_map.mp h3
    exact urlMapChar_safe c₀ (hmain c₀ hc₀)
  · intro a ha
    have h1 : a ∈ pad.map urlMapChar := List.mem_reverse.mp ha
    obtain ⟨a₀, ha₀, rfl⟩ := List.mem_map.mp h1
    rw [hpad a₀ ha₀]
    decide

/-- C2 (amended): the encryption equations of the claim hold, and
`fileEncSha256` is emitted in URL-safe base64 without padding (hence free
of `+`, `/` and `=`), but `fileSha256` (like `mediaKey`) is emitted
through a plain padded `.toString(base64)`; `fileLength` is the buffer
length. -/
theorem prepareMediaMessage_amended :
    ∀ (prims : MediaCryptoPrims) (mediaKey : List Nat) (mediaType : String)
      (buffer : List Nat),
      (prepareMediaMessage prims mediaKey mediaType buffer).1.enc =
        prims.aesEncrypWithIV buffer
          (prims.getMediaKeys mediaKey mediaType).cipherKey
          (prims.getMediaKeys mediaKey mediaType).iv ∧
      (prepareMediaMessage prims mediaKey mediaType buffer).1.mac =
        (prims.hmacSign
          ((prims.getMediaKeys mediaKey mediaType).iv ++
            (prepareMediaMessage prims mediaKey mediaType buffer).1.enc)
          (prims.getMediaKeys mediaKey mediaType).macKey).take 10 ∧
      (prepareMediaMessage prims mediaKey mediaType buffer).1.body =
        (prepareMediaMessage prims mediaKey mediaType buffer).1.enc ++
          (prepareMediaMessage prims mediaKey mediaType buffer).1.mac ∧
      (prepareMediaMessage prims mediaKey mediaType buffer).2.fileSha256 =
        base64Encode (prims.sha256 buffer) ∧
      (prepareMediaMessage prims mediaKey mediaType buffer).2.fileEncSha256 =
        base64urlNoPad (prims.sha256
          (prepareMediaMessage prims mediaKey mediaType buffer).1.body) ∧
      ((prepareMediaMessage prims mediaKey mediaType buffer).2.fileEncSha256.all
        isB64UrlSafe) = true ∧
      (prepareMediaMessage prims mediaKey mediaType buffer).2.fileLength =
        buffer.length := by
  intro prims mediaKey mediaType buffer
  refine ⟨rfl, rfl, rfl, rfl, rfl, ?_, rfl⟩
  exact b64urlNoPad_all_safe _

end Baileys
